import Mathlib

/-
Shallow embedding of the Ansible module src/monitoring/datadog_downtime.py.

The module is a stateless reconciler over a remote monitoring service.  The
remote service is modelled by the Remote structure below: the list response
(either an error payload or a list of downtimes) and, for each mutating call,
whether the response carries an errors field (modelled as an Option String
holding the error payload text).  The module itself is modelled as a pure
function from the remote oracle, the invocation parameters and the current
time to the pair of (sequence of remote calls issued, terminal outcome).

Python-level details that matter to the claims are modelled explicitly:
  * percent-formatting of result messages never raises in this module: every
    format site applies either a tuple of matching arity or a single
    non-tuple value, and the single value is either a list (which CPython
    percent-formatting treats as a mapping, so even the specifier-free
    strings of lines 199 and 202 format successfully, returning the string
    unchanged) or an error payload spliced into a single percent-s
    specifier; messages are therefore kept structural, as the pair of the
    format string and the value list;
  * int(start) on line 195 raises TypeError when the start parameter was
    omitted (None); such an uncaught exception is the Outcome.pyError
    terminal state;
  * line 195 compares the recurrence parameter (a JSON string) against the
    remote downtime recurrence (a structured object decoded from JSON);
    Python equality between a string and a structured object is always False,
    so that comparison holds exactly when both sides are None.
Message strings are kept structured as (format string, value list) pairs in
the outcome; the values spliced in are the Python str renderings (a list of
tags renders as a bracketed, comma separated, quoted sequence).
-/

namespace DatadogDowntime

/-- A structured recurrence object attached to a remote downtime (decoded from
JSON by the remote service; the module never inspects its fields). -/
structure Recurrence where
  rtype : String
  period : Nat
deriving DecidableEq

/-- A remote downtime record, with the fields the module reads.  The source
field named end is called endTime here because end is a Lean keyword. -/
structure Downtime where
  id : Nat
  scope : List String
  start : Int
  endTime : Option Int
  message : Option String
  recurrence : Option Recurrence
  active : Bool
  canceled : Bool
deriving DecidableEq

/-- The three values accepted for the state parameter (line 154). -/
inductive ModState where
  | present
  | updated
  | absent
deriving DecidableEq

/-- The invocation parameters after Ansible parsing (lines 150-162).  start
and endTime are numeric strings in the source; they are modelled as already
converted integers, with none meaning the parameter was omitted (None, which
is falsy).  active_only with default None is modelled as false. -/
structure Params where
  state : ModState
  scope : List String
  start : Option Int
  endTime : Option Int
  message : Option String
  activeOnly : Bool
  recurrence : Option String
deriving DecidableEq

/-- The remote service oracle.  listErrors is the errors field of the
get_all response (some payload when the response carries errors); downtimes
is the list payload otherwise.  createErrors, updateErrors and deleteErrors
give the errors field of the corresponding mutating call response (the source
guard is result and errors-in-result; a response carrying an errors field is a
nonempty mapping, hence truthy, so the guard is equivalent to the field being
present). -/
structure Remote where
  listErrors : Option String
  downtimes : List Downtime
  createErrors : Option String
  updateErrors : Nat → Option String
  deleteErrors : Nat → Option String

/-- One remote call issued by the module, with the arguments the source
passes (lines 211, 236, 247, 257).  The create call carries the recurrence
parameter as given; json.loads of it is not modelled (no claim depends on the
decoded structure). -/
inductive Call where
  | listAll
  | create (scope : List String) (start : Int) (endTime : Option Int)
      (message : Option String) (recurrence : Option String)
  | update (id : Nat) (start : Option Int) (endTime : Option Int)
      (message : Option String) (recurrence : Option String)
  | delete (id : Nat)
deriving DecidableEq

/-- Terminal outcome of an invocation: exit_json (with changed flag and the
structured message), fail_json at the no-match site (line 278), fail_json at
one of the remote-error sites (lines 259, 213, 238, 249), or an uncaught
Python TypeError (int of None on line 195). -/
inductive Outcome where
  | exited (changed : Bool) (fmt : String) (vals : List String)
  | noMatch (fmt : String) (vals : List String)
  | remoteError (fmt : String) (vals : List String)
  | pyError
deriving DecidableEq

/-- The format strings of the source, verbatim (apostrophes written as hex
escapes). -/
def fmtNoMatch : String := "No downtime matching scope \x27%s\x27 found."

def fmtListError : String := "Error while retrieving downtimes: %s"

def fmtCreateError : String := "Error while setting downtime: %s"

def fmtCreated : String := "Downtime for scope \x27%s\x27 set."

def fmtUpdateError : String := "Error while updating downtime: %s"

def fmtUpdated : String := "Downtime/s for scope \x27%s\x27 updated (found %s, updated %s)."

def fmtDeleteError : String := "Error while canceling downtime: %s"

def fmtCanceled : String := "Downtime/s for scope \x27%s\x27 canceled (found %s)."

def fmtMatchEndDefined : String := "Matching downtime already present (end defined)."

def fmtMatchNoEnd : String := "Matching downtime already present (no end defined)."

/-- Python str rendering of a list of strings, as spliced into messages by a
percent-s specifier. -/
def pyStr (xs : List String) : String :=
  "[" ++ String.intercalate ", " (xs.map (fun s => "\x27" ++ s ++ "\x27")) ++ "]"

/-- module.exit_json with a percent-formatted message, kept structural as
the pair of format string and value list.  The formatting itself never
raises here: a list right-operand is treated as a mapping by CPython
percent-formatting, so even the specifier-free strings of lines 199 and 202
applied to the scope list format successfully (the message is the format
string unchanged), and every other exit site has matching arity. -/
def exitJson (changed : Bool) (fmt : String) (vals : List String) : Outcome :=
  .exited changed fmt vals

/-- module.fail_json at a remote-error site (a single percent-s specifier
applied to the error payload). -/
def failRemote (fmt : String) (vals : List String) : Outcome :=
  .remoteError fmt vals

/-- module.fail_json at the no-match site (line 278; a single percent-s
specifier applied to the scope list). -/
def failNoMatch (fmt : String) (vals : List String) : Outcome :=
  .noMatch fmt vals

/-- The scope test used on lines 195 and 274: len(set(search) minus
set(dscope)) equals zero, i.e. every searched tag occurs among the downtime
tags (the downtime scope is a superset). -/
def scopeSubset (search dscope : List String) : Bool :=
  search.all (fun t => dscope.contains t)

/-- The body of the filter loop of find_downtimes_by_scope (lines 263-275):
keep a downtime when it is not canceled, it is active or active_only is not
set, and its scope passes the scope test. -/
def matchesFilter (activeOnly : Bool) (search : List String) (d : Downtime) : Bool :=
  !d.canceled && (d.active || !activeOnly) && scopeSubset search d.scope

/-- find_downtimes_by_scope (lines 253-280): issue the list call; fail on an
error payload; filter; fail at line 278 when nothing matched; otherwise
return the matching downtimes. -/
def find_downtimes_by_scope (r : Remote) (p : Params) :
    List Call × Except Outcome (List Downtime) :=
  match r.listErrors with
  | some e => ([Call.listAll], .error (failRemote fmtListError [e]))
  | none =>
    let matching := r.downtimes.filter (matchesFilter p.activeOnly p.scope)
    if matching = [] then
      ([Call.listAll], .error (failNoMatch fmtNoMatch [pyStr p.scope]))
    else
      ([Call.listAll], .ok matching)

/-- Line 195 compares the recurrence parameter (a JSON string) with the
remote downtime recurrence (a structured object): equal exactly when both
are None. -/
def recurrenceEq (param : Option String) (remote : Option Recurrence) : Bool :=
  param.isNone && remote.isNone

/-- The duplicate-scan loop of set_downtime (lines 193-202).  Returns none
when the loop falls through, and some outcome when the loop terminates the
invocation.  The conjunction on line 195 is evaluated left to right: the
scope test first, then int(start), which raises TypeError when start was
omitted; the exits on lines 199 and 202 report changed false with the
literal message (the specifier-free format applied to the scope list
succeeds, see exitJson). -/
def dupScan (p : Params) : List Downtime → Option Outcome
  | [] => none
  | d :: ds =>
    if scopeSubset p.scope d.scope then
      match p.start with
      | none => some Outcome.pyError
      | some s =>
        if s == d.start && p.message == d.message
            && recurrenceEq p.recurrence d.recurrence then
          match p.endTime with
          | some e =>
            if (some e : Option Int) == d.endTime then
              some (exitJson false fmtMatchEndDefined [pyStr p.scope])
            else dupScan p ds
          | none => some (exitJson false fmtMatchNoEnd [pyStr p.scope])
        else dupScan p ds
    else dupScan p ds

/-- set_downtime (lines 185-215): scan for a duplicate; otherwise default
start to the current time, issue the create call, fail on an error payload,
else exit changed. -/
def set_downtime (r : Remote) (p : Params) (downtimes : List Downtime) (now : Int) :
    List Call × Outcome :=
  match dupScan p downtimes with
  | some o => ([], o)
  | none =>
    let start := p.start.getD now
    let c := Call.create p.scope start p.endTime p.message p.recurrence
    match r.createErrors with
    | some e => ([c], failRemote fmtCreateError [e])
    | none => ([c], exitJson true fmtCreated [pyStr p.scope])

/-- The loop of update_downtimes (lines 231-240), threading the count of
updated downtimes: skip a downtime whose start is in the past when a start
parameter was given; otherwise issue the update call, failing fast on an
error payload. -/
def updateLoop (r : Remote) (p : Params) (now : Int) :
    List Downtime → Nat → List Call × Except Outcome Nat
  | [], updated => ([], .ok updated)
  | d :: ds, updated =>
    if p.start.isSome && decide (d.start < now) then
      updateLoop r p now ds updated
    else
      let c := Call.update d.id p.start p.endTime p.message p.recurrence
      match r.updateErrors d.id with
      | some e => ([c], .error (failRemote fmtUpdateError [e]))
      | none =>
        let rest := updateLoop r p now ds (updated + 1)
        (c :: rest.1, rest.2)

/-- update_downtimes (lines 217-242): run the loop, then exit changed with
the found and updated counts in the message. -/
def update_downtimes (r : Remote) (p : Params) (downtimes : List Downtime) (now : Int) :
    List Call × Outcome :=
  match updateLoop r p now downtimes 0 with
  | (cs, .error o) => (cs, o)
  | (cs, .ok updated) =>
    (cs, exitJson true fmtUpdated
      [pyStr p.scope, toString downtimes.length, toString updated])

/-- The loop of cancel_downtimes (lines 246-249): issue a delete call per
downtime, failing fast on an error payload. -/
def cancelLoop (r : Remote) : List Downtime → List Call × Option Outcome
  | [] => ([], none)
  | d :: ds =>
    match r.deleteErrors d.id with
    | some e => ([Call.delete d.id], some (failRemote fmtDeleteError [e]))
    | none =>
      let rest := cancelLoop r ds
      (Call.delete d.id :: rest.1, rest.2)

/-- cancel_downtimes (lines 244-251): run the loop, then exit changed with
the found count in the message. -/
def cancel_downtimes (r : Remote) (p : Params) (downtimes : List Downtime) :
    List Call × Outcome :=
  match cancelLoop r downtimes with
  | (cs, some o) => (cs, o)
  | (cs, none) => (cs, exitJson true fmtCanceled [pyStr p.scope, toString downtimes.length])

/-- main (lines 149-183): fetch and filter, then branch on the state
parameter.  Returns the full sequence of remote calls issued and the
terminal outcome. -/
def runModule (r : Remote) (p : Params) (now : Int) : List Call × Outcome :=
  match find_downtimes_by_scope r p with
  | (cs, .error o) => (cs, o)
  | (cs, .ok downtimes) =>
    let res :=
      match p.state with
      | .present => set_downtime r p downtimes now
      | .updated => update_downtimes r p downtimes now
      | .absent => cancel_downtimes r p downtimes
    (cs ++ res.1, res.2)

/-- Whether the response the remote oracle gives to a call carries an errors
field. -/
def callHasErrors (r : Remote) : Call → Bool
  | .listAll => r.listErrors.isSome
  | .create _ _ _ _ _ => r.createErrors.isSome
  | .update i _ _ _ _ => (r.updateErrors i).isSome
  | .delete i => (r.deleteErrors i).isSome

/-- Whether an outcome is a failure at one of the remote-error sites. -/
def isRemoteErr : Outcome → Bool
  | .remoteError _ _ => true
  | _ => false

/-- Fail-fast shape of the result of one lifecycle branch: either the branch
succeeded without a remote error and every call it issued came back clean, or
it failed at a remote-error site, every call but the last came back clean and
the last call is the one that carried the error payload. -/
def BranchSpec (r : Remote) (res : List Call × Outcome) : Prop :=
  (isRemoteErr res.2 = false ∧ ∀ c ∈ res.1, callHasErrors r c = false) ∨
  (isRemoteErr res.2 = true ∧ ∃ cs0 c0, res.1 = cs0 ++ [c0] ∧
    (∀ c ∈ cs0, callHasErrors r c = false) ∧ callHasErrors r c0 = true)

/-- A remote store with no downtimes and no error payloads. -/
def remoteBase : Remote :=
  { listErrors := none, downtimes := [], createErrors := none,
    updateErrors := fun _ => none, deleteErrors := fun _ => none }

/-- Baseline invocation parameters: ensure-present for scope host:a with
every optional parameter omitted. -/
def paramsBase : Params :=
  { state := .present, scope := ["host:a"], start := none, endTime := none,
    message := none, activeOnly := false, recurrence := none }

/-- A plain remote downtime on scope host:a with start 100 and no end,
message or recurrence. -/
def dtBase : Downtime :=
  { id := 1, scope := ["host:a"], start := 100, endTime := none, message := none,
    recurrence := none, active := true, canceled := false }

/-- Scenario B downtime for claim C3. -/
def dC3 : Downtime := dtBase

/-- Scenario B remote store for claim C3. -/
def rC3 : Remote := { remoteBase with downtimes := [dC3] }

/-- Scenario B parameters for claim C3: present with start 100 given. -/
def pC3 : Params := { paramsBase with start := some 100 }

/-- Claim C4 downtime: scope is a proper superset of the desired scope and
every other compared field matches the desired state. -/
def dC4 : Downtime := { dtBase with id := 2, scope := ["host:a", "env:prod"] }

/-- Claim C4 remote store. -/
def rC4 : Remote := { remoteBase with downtimes := [dC4] }

/-- Claim C4 parameters: present for scope host:a with start 100 given. -/
def pC4 : Params := { paramsBase with start := some 100 }

/-- Claim C5 witness downtime. -/
def dC5 : Downtime := { dtBase with id := 5 }

/-- Claim C5 witness remote store. -/
def rC5 : Remote := { remoteBase with downtimes := [dC5] }

/-- Claim C5 witness parameters. -/
def pC5 : Params := paramsBase

/-- Scenario D downtime for claim C6: start 10 lies in the past of the
current time 1000 used below. -/
def dC6 : Downtime := { dtBase with id := 3, start := 10 }

/-- Scenario D remote store for claim C6. -/
def rC6 : Remote := { remoteBase with downtimes := [dC6] }

/-- Scenario D parameters for claim C6: updated with start 9999 and end 5000
given. -/
def pC6 : Params :=
  { paramsBase with state := .updated, start := some 9999, endTime := some 5000 }

/-- Scenario C downtimes for claim C7: one active, one inactive. -/
def dC7a : Downtime := { dtBase with id := 10, active := true }

/-- Scenario C second downtime for claim C7. -/
def dC7b : Downtime := { dtBase with id := 11, active := false }

/-- Scenario C remote store for claim C7. -/
def rC7 : Remote := { remoteBase with downtimes := [dC7a, dC7b] }

/-- Scenario C parameters for claim C7. -/
def pC7 : Params := { paramsBase with state := .absent }

/-- Scenario E remote store for claim C8: the list call returns an error
payload. -/
def rC8 : Remote := { remoteBase with listErrors := some "boom" }

/-- Scenario E parameters for claim C8. -/
def pC8 : Params := paramsBase

/-- Claim C9 downtime: a non-canceled downtime matching the scope. -/
def dC9 : Downtime := { dtBase with id := 4 }

/-- Claim C9 remote store. -/
def rC9 : Remote := { remoteBase with downtimes := [dC9] }

/-- Claim C9 parameters: present with the start parameter omitted. -/
def pC9 : Params := paramsBase

/-- Claim C10 downtime: inactive, not canceled, and matching every desired
field of pC10 (scope, start, message, recurrence). -/
def dC10 : Downtime := { dtBase with id := 6, active := false }

/-- Claim C10 remote store for the counterexample: the inactive full-field
match is the only downtime. -/
def rC10 : Remote := { remoteBase with downtimes := [dC10] }

/-- Claim C10 parameters: present with active_only set and start 100 given. -/
def pC10 : Params := { paramsBase with start := some 100, activeOnly := true }

/-- Claim C10 witness second downtime: active, matching the scope but not the
desired start, so it keeps the MatchSet nonempty without being a duplicate. -/
def dC10b : Downtime := { dtBase with id := 7, start := 500 }

/-- Claim C10 witness remote store: the inactive full-field match together
with an active non-duplicate. -/
def rC10w : Remote := { remoteBase with downtimes := [dC10, dC10b] }

/-- Membership in the filtered list of find_downtimes_by_scope, spelled out:
not canceled, active whenever active_only is set, and every searched tag
occurs among the downtime tags. -/
theorem matchesFilter_eq_true_iff (ao : Bool) (sc : List String) (d : Downtime) :
    matchesFilter ao sc d = true ↔
      d.canceled = false ∧ (ao = true → d.active = true) ∧ ∀ t ∈ sc, t ∈ d.scope := by
  unfold matchesFilter scopeSubset
  cases d.canceled <;> cases d.active <;> cases ao <;> simp [List.all_eq_true]

/-- When find_downtimes_by_scope returns a list, the list call succeeded, the
list is the filtered store, and it is nonempty. -/
theorem find_ok (r : Remote) (p : Params) (ds : List Downtime)
    (hok : (find_downtimes_by_scope r p).2 = Except.ok ds) :
    r.listErrors = none ∧
    ds = r.downtimes.filter (matchesFilter p.activeOnly p.scope) ∧ ds ≠ [] := by
  cases hl : r.listErrors with
  | some e => simp [find_downtimes_by_scope, hl] at hok
  | none =>
    by_cases hF : r.downtimes.filter (matchesFilter p.activeOnly p.scope) = []
    · simp [find_downtimes_by_scope, hl, hF] at hok
    · simp [find_downtimes_by_scope, hl, hF] at hok
      exact ⟨rfl, hok.symm, fun h => hF (hok.trans h)⟩

/-- C1: in every lifecycle state, when the filtered set of downtimes is
empty the invocation fails at the no-match site right after the list call,
before any create, update or delete call; and a create call is only ever
issued when the filter produced at least one downtime. -/
theorem C1_empty_matchset_fails_before_any_mutation (r : Remote) (p : Params) (now : Int) :
    (r.listErrors = none →
      r.downtimes.filter (matchesFilter p.activeOnly p.scope) = [] →
      (runModule r p now).1 = [Call.listAll] ∧
      (runModule r p now).2 = Outcome.noMatch fmtNoMatch [pyStr p.scope]) ∧
    (∀ sc st e m rec, Call.create sc st e m rec ∈ (runModule r p now).1 →
      r.downtimes.filter (matchesFilter p.activeOnly p.scope) ≠ []) := by
  constructor
  · intro hlist hempty
    simp [runModule, find_downtimes_by_scope, hlist, hempty, failNoMatch]
  · intro sc st e m rec hmem hF
    cases hl : r.listErrors with
    | some e2 => simp [runModule, find_downtimes_by_scope, hl] at hmem
    | none => simp [runModule, find_downtimes_by_scope, hl, hF] at hmem

/-- C1 witness: on an empty remote store the invocation fails at the
no-match site with only the list call issued. -/
theorem C1_witness :
    (runModule remoteBase paramsBase 0).1 = [Call.listAll] ∧
    (runModule remoteBase paramsBase 0).2 =
      Outcome.noMatch fmtNoMatch [pyStr paramsBase.scope] :=
  (C1_empty_matchset_fails_before_any_mutation remoteBase paramsBase 0).1 rfl rfl

/-- C2: with an empty remote store, present for scope host:a with no end
fails at the no-match site and issues no create call at all, instead of
creating the downtime with start defaulted to the current time and reporting
changed. -/
theorem C2_present_on_empty_store_fails_no_create :
    runModule remoteBase paramsBase 1000 =
      ([Call.listAll], Outcome.noMatch fmtNoMatch [pyStr ["host:a"]]) := by
  decide

/-- Helper for C3: when some member of the scanned list passes the scope
test and agrees with the supplied start, the message, the recurrence, and
the end whenever one is specified, the duplicate scan terminates the
invocation with an exit reporting changed false (it never creates). -/
theorem dupScan_full_match (p : Params) (s : Int) (hs : p.start = some s) :
    ∀ ds : List Downtime,
      (∃ d ∈ ds, scopeSubset p.scope d.scope = true ∧ s = d.start ∧
        p.message = d.message ∧ recurrenceEq p.recurrence d.recurrence = true ∧
        ∀ e, p.endTime = some e → d.endTime = some e) →
      ∃ fmt vals, dupScan p ds = some (Outcome.exited false fmt vals) := by
  intro ds
  induction ds with
  | nil => rintro ⟨d, hd, -⟩; cases hd
  | cons d0 ds ih =>
    rintro ⟨d, hd, hsub, hst, hmsg, hrec, hend⟩
    by_cases h0 : scopeSubset p.scope d0.scope = true
    · rw [dupScan, if_pos h0]
      simp only [hs]
      by_cases hmatch : (s == d0.start && p.message == d0.message
          && recurrenceEq p.recurrence d0.recurrence) = true
      · rw [if_pos hmatch]
        cases het : p.endTime with
        | none => exact ⟨fmtMatchNoEnd, [pyStr p.scope], rfl⟩
        | some e =>
          by_cases hee : ((some e : Option Int) == d0.endTime) = true
          · exact ⟨fmtMatchEndDefined, [pyStr p.scope], by simp [hee, exitJson]⟩
          · rcases List.mem_cons.mp hd with rfl | hd'
            · exact absurd (by simp [hend e het]) hee
            · obtain ⟨fmt, vals, hscan⟩ := ih ⟨d, hd', hsub, hst, hmsg, hrec, hend⟩
              exact ⟨fmt, vals, by simp [hee, hscan]⟩
      · rw [if_neg hmatch]
        rcases List.mem_cons.mp hd with rfl | hd'
        · exact absurd (by simp [hst, hmsg, hrec]) hmatch
        · exact ih ⟨d, hd', hsub, hst, hmsg, hrec, hend⟩
    · rw [dupScan, if_neg h0]
      rcases List.mem_cons.mp hd with rfl | hd'
      · exact absurd hsub h0
      · exact ih ⟨d, hd', hsub, hst, hmsg, hrec, hend⟩

/-- C3: in the present path, when some member of the MatchSet fully matches
the desired state (scope test, start, message, recurrence, and end whenever
one is specified), the invocation exits reporting changed false and issues
no remote mutation: the only remote call in the trace is the list call. -/
theorem C3_full_match_is_noop (r : Remote) (p : Params) (d : Downtime) (now : Int)
    (s : Int)
    (hstate : p.state = ModState.present)
    (hlist : r.listErrors = none)
    (hmem : d ∈ r.downtimes.filter (matchesFilter p.activeOnly p.scope))
    (hs : p.start = some s)
    (hst : s = d.start)
    (hmsg : p.message = d.message)
    (hrec : recurrenceEq p.recurrence d.recurrence = true)
    (hend : ∀ e, p.endTime = some e → d.endTime = some e) :
    (runModule r p now).1 = [Call.listAll] ∧
    ∃ fmt vals, (runModule r p now).2 = Outcome.exited false fmt vals := by
  have hF : r.downtimes.filter (matchesFilter p.activeOnly p.scope) ≠ [] :=
    List.ne_nil_of_mem hmem
  have hsub : scopeSubset p.scope d.scope = true := by
    have h := (List.mem_filter.mp hmem).2
    simp only [matchesFilter, Bool.and_eq_true] at h
    exact h.2
  obtain ⟨fmt, vals, hscan⟩ :=
    dupScan_full_match p s hs
      (r.downtimes.filter (matchesFilter p.activeOnly p.scope))
      ⟨d, hmem, hsub, hst, hmsg, hrec, hend⟩
  have he : runModule r p now = ([Call.listAll], Outcome.exited false fmt vals) := by
    simp [runModule, find_downtimes_by_scope, hlist, hF, hstate, set_downtime, hscan]
  rw [he]
  exact ⟨rfl, fmt, vals, rfl⟩

/-- C3 witness: Scenario B — one stored downtime fully matching the desired
state with end omitted on both sides: only the list call is issued and the
invocation exits with changed false. -/
theorem C3_witness :
    (runModule rC3 pC3 1000).1 = [Call.listAll] ∧
    (runModule rC3 pC3 1000).2 =
      Outcome.exited false fmtMatchNoEnd [pyStr pC3.scope] :=
  ⟨(C3_full_match_is_noop rC3 pC3 dC3 1000 100 rfl rfl (by decide) rfl rfl rfl rfl
      (fun e he => by cases he)).1,
    by decide⟩

/-- C4: a stored downtime whose scope is a proper superset of the desired
scope passes the duplicate check of the present path (the check only tests
that every desired tag occurs in the downtime scope), so no create call is
issued even though the tag counts differ. -/
theorem C4_superset_scope_accepted_as_duplicate :
    scopeSubset pC4.scope dC4.scope = true ∧
    dC4.scope.length ≠ pC4.scope.length ∧
    (runModule rC4 pC4 1000).1 = [Call.listAll] := by
  decide

/-- C9: in the present path with the start parameter omitted and a nonempty
MatchSet, the duplicate comparison evaluates int of None and raises
TypeError: the default-to-now assignment sits after the loop, so the
comparison does operate on a null start and the invocation dies. -/
theorem C9_omitted_start_crashes_duplicate_check :
    runModule rC9 pC9 1000 = ([Call.listAll], Outcome.pyError) := by
  decide

/-- C10 counterexample: with active_only set and present, when the only
downtime matching the scope is an inactive one that matches every desired
field, the MatchSet is empty and the invocation fails at the no-match site —
no create call is issued, contradicting the claim that the present path
would proceed to create. -/
theorem C10_counterexample :
    runModule rC10 pC10 1000 =
      ([Call.listAll], Outcome.noMatch fmtNoMatch [pyStr ["host:a"]]) := by
  decide

/-- C5: the MatchSet returned by the fetch-and-filter step contains exactly
the stored downtimes that are not canceled, are active whenever active_only
is set, and whose scope tag set contains every desired tag (superset
containment); in particular a canceled downtime never appears and any
superset scope passes the scope filter. -/
theorem C5_matchset_characterisation (r : Remote) (p : Params) (ds : List Downtime)
    (hok : (find_downtimes_by_scope r p).2 = Except.ok ds) (d : Downtime) :
    d ∈ ds ↔
      d ∈ r.downtimes ∧ d.canceled = false ∧
      (p.activeOnly = true → d.active = true) ∧ ∀ t ∈ p.scope, t ∈ d.scope := by
  obtain ⟨-, hds, -⟩ := find_ok r p ds hok
  subst hds
  rw [List.mem_filter, matchesFilter_eq_true_iff]

/-- C5 witness: the characterisation applied to a concrete store with one
matching downtime. -/
theorem C5_witness : dC5 ∈ rC5.downtimes :=
  ((C5_matchset_characterisation rC5 pC5 [dC5] rfl dC5).mp (by decide)).1

/-- C6: in the updated state with a single matching downtime whose start is
in the past, the downtime receives no update call exactly when a start
parameter was supplied; with start supplied the invocation issues zero
update calls yet exits changed reporting found 1, updated 0, and with start
omitted it issues the update call and exits changed reporting updated 1. -/
theorem C6_update_skip_rule (r : Remote) (p : Params) (d : Downtime) (now : Int)
    (hstate : p.state = .updated)
    (hlist : r.listErrors = none)
    (hfilter : r.downtimes.filter (matchesFilter p.activeOnly p.scope) = [d])
    (hpast : d.start < now)
    (hupd : r.updateErrors d.id = none) :
    (p.start ≠ none →
      (runModule r p now).1 = [Call.listAll] ∧
      (runModule r p now).2 =
        Outcome.exited true fmtUpdated [pyStr p.scope, "1", "0"]) ∧
    (p.start = none →
      (runModule r p now).1 =
        [Call.listAll, Call.update d.id none p.endTime p.message p.recurrence] ∧
      (runModule r p now).2 =
        Outcome.exited true fmtUpdated [pyStr p.scope, "1", "1"]) := by
  have hd : decide (d.start < now) = true := decide_eq_true hpast
  have ht1 : toString (1 : Nat) = "1" := rfl
  have ht0 : toString (0 : Nat) = "0" := rfl
  constructor
  · intro hs
    obtain ⟨s, hs'⟩ := Option.ne_none_iff_exists'.mp hs
    simp [runModule, find_downtimes_by_scope, hlist, hfilter, hstate,
      update_downtimes, updateLoop, hs', hd, exitJson, ht1, ht0]
  · intro hs
    simp [runModule, find_downtimes_by_scope, hlist, hfilter, hstate,
      update_downtimes, updateLoop, hs, hupd, exitJson, ht1]

/-- C6 witness: Scenario D — one stored downtime with start 10 in the past
of current time 1000, updated invoked with start 9999 and end 5000: no
update call, changed reported with found 1, updated 0. -/
theorem C6_witness :
    (runModule rC6 pC6 1000).1 = [Call.listAll] ∧
    (runModule rC6 pC6 1000).2 =
      Outcome.exited true fmtUpdated [pyStr pC6.scope, "1", "0"] :=
  (C6_update_skip_rule rC6 pC6 dC6 1000 rfl rfl (by decide) (by decide) rfl).1
    (by decide)

/-- When no delete response carries an error payload, the cancel loop issues
one delete call per downtime, in order, and terminates no invocation. -/
theorem cancelLoop_clean (r : Remote) :
    ∀ ds : List Downtime, (∀ d ∈ ds, r.deleteErrors d.id = none) →
      cancelLoop r ds = (ds.map (fun d => Call.delete d.id), none) := by
  intro ds
  induction ds with
  | nil => intro _; rfl
  | cons d ds ih =>
    intro h
    have hd := h d (by simp)
    have ht : ∀ x ∈ ds, r.deleteErrors x.id = none := fun x hx => h x (by simp [hx])
    simp [cancelLoop, hd, ih ht]

/-- C7: in the absent state, one delete call is issued for every member of
the MatchSet regardless of the active flags, and when no delete response
carries an error payload the invocation exits changed reporting the size of
the MatchSet. -/
theorem C7_absent_deletes_all_matches (r : Remote) (p : Params) (ds : List Downtime)
    (now : Int)
    (hstate : p.state = .absent)
    (hlist : r.listErrors = none)
    (hfilter : r.downtimes.filter (matchesFilter p.activeOnly p.scope) = ds)
    (hne : ds ≠ [])
    (hdel : ∀ d ∈ ds, r.deleteErrors d.id = none) :
    (runModule r p now).1 = Call.listAll :: ds.map (fun d => Call.delete d.id) ∧
    (runModule r p now).2 =
      Outcome.exited true fmtCanceled [pyStr p.scope, toString ds.length] := by
  simp [runModule, find_downtimes_by_scope, hlist, hfilter, hne, hstate,
    cancel_downtimes, cancelLoop_clean r ds hdel, exitJson]

/-- C7 witness: Scenario C — two stored downtimes matching the scope, one
active and one not: two delete calls and changed with count 2. -/
theorem C7_witness :
    (runModule rC7 pC7 0).1 =
      Call.listAll :: [dC7a, dC7b].map (fun d => Call.delete d.id) ∧
    (runModule rC7 pC7 0).2 =
      Outcome.exited true fmtCanceled
        [pyStr pC7.scope, toString ([dC7a, dC7b] : List Downtime).length] :=
  C7_absent_deletes_all_matches rC7 pC7 [dC7a, dC7b] 0 rfl rfl (by decide)
    (by decide) (by decide)

/-- exit_json never produces an outcome of the remote-error kind. -/
theorem isRemoteErr_exitJson (b : Bool) (f : String) (v : List String) :
    isRemoteErr (exitJson b f v) = false := rfl

/-- The no-match site never produces an outcome of the remote-error kind. -/
theorem isRemoteErr_failNoMatch (f : String) (v : List String) :
    isRemoteErr (failNoMatch f v) = false := rfl

/-- The duplicate scan only ever terminates the invocation with an exit or a
TypeError, never with a remote-error failure. -/
theorem dupScan_not_remote (p : Params) :
    ∀ (ds : List Downtime) (o : Outcome), dupScan p ds = some o → isRemoteErr o = false := by
  intro ds
  induction ds with
  | nil => intro o h; simp [dupScan] at h
  | cons d ds ih =>
    intro o h
    rw [dupScan] at h
    cases hss : scopeSubset p.scope d.scope with
    | false => simp [hss] at h; exact ih o h
    | true =>
      simp only [hss, if_true] at h
      cases hst : p.start with
      | none => simp [hst] at h; subst h; rfl
      | some s =>
        simp only [hst] at h
        by_cases hm : (s == d.start && p.message == d.message
            && recurrenceEq p.recurrence d.recurrence) = true
        · simp only [hm, if_true] at h
          cases het : p.endTime with
          | none => simp [het] at h; subst h; exact isRemoteErr_exitJson ..
          | some e =>
            simp only [het] at h
            by_cases hee : ((some e : Option Int) == d.endTime) = true
            · simp [hee] at h; subst h; exact isRemoteErr_exitJson ..
            · simp [hee] at h; exact ih o h
        · simp [hm] at h; exact ih o h

/-- Fail-fast behaviour of the update loop: on success every issued call came
back clean; on failure the outcome is a remote-error failure, the erroring
call is the last one issued and every earlier call came back clean. -/
theorem updateLoop_spec (r : Remote) (p : Params) (now : Int) :
    ∀ (ds : List Downtime) (acc : Nat),
      (∀ n, (updateLoop r p now ds acc).2 = Except.ok n →
        ∀ c ∈ (updateLoop r p now ds acc).1, callHasErrors r c = false) ∧
      (∀ o, (updateLoop r p now ds acc).2 = Except.error o →
        isRemoteErr o = true ∧
        ∃ cs0 c0, (updateLoop r p now ds acc).1 = cs0 ++ [c0] ∧
          (∀ c ∈ cs0, callHasErrors r c = false) ∧ callHasErrors r c0 = true) := by
  intro ds
  induction ds with
  | nil =>
    intro acc
    constructor
    · intro n _ c hc; simp [updateLoop] at hc
    · intro o ho; simp [updateLoop] at ho
  | cons d ds ih =>
    intro acc
    by_cases hskip : (p.start.isSome && decide (d.start < now)) = true
    · have he : updateLoop r p now (d :: ds) acc = updateLoop r p now ds acc := by
        rw [updateLoop, if_pos hskip]
      rw [he]
      exact ih acc
    · cases hu : r.updateErrors d.id with
      | some e =>
        have he : updateLoop r p now (d :: ds) acc =
            ([Call.update d.id p.start p.endTime p.message p.recurrence],
              Except.error (failRemote fmtUpdateError [e])) := by
          simp [updateLoop, hskip, hu]
        rw [he]
        constructor
        · intro n hn; simp at hn
        · intro o ho
          simp at ho
          subst ho
          refine ⟨by simp [failRemote, isRemoteErr], [],
            Call.update d.id p.start p.endTime p.message p.recurrence,
            by simp, by simp, by simp [callHasErrors, hu]⟩
      | none =>
        have he : updateLoop r p now (d :: ds) acc =
            (Call.update d.id p.start p.endTime p.message p.recurrence
                :: (updateLoop r p now ds (acc + 1)).1,
              (updateLoop r p now ds (acc + 1)).2) := by
          simp [updateLoop, hskip, hu]
        rw [he]
        constructor
        · intro n hn c hc
          simp at hn hc
          rcases hc with rfl | hc
          · simp [callHasErrors, hu]
          · exact (ih (acc + 1)).1 n hn c hc
        · intro o ho
          simp at ho
          obtain ⟨hre, cs0, c0, hcs, hclean, herr⟩ := (ih (acc + 1)).2 o ho
          refine ⟨hre, Call.update d.id p.start p.endTime p.message p.recurrence :: cs0,
            c0, by simp [hcs], ?_, herr⟩
          intro c hc
          rcases List.mem_cons.mp hc with rfl | hc
          · simp [callHasErrors, hu]
          · exact hclean c hc

/-- Fail-fast behaviour of the cancel loop, in the same shape as the update
loop specification. -/
theorem cancelLoop_spec (r : Remote) :
    ∀ ds : List Downtime,
      ((cancelLoop r ds).2 = none →
        ∀ c ∈ (cancelLoop r ds).1, callHasErrors r c = false) ∧
      (∀ o, (cancelLoop r ds).2 = some o →
        isRemoteErr o = true ∧
        ∃ cs0 c0, (cancelLoop r ds).1 = cs0 ++ [c0] ∧
          (∀ c ∈ cs0, callHasErrors r c = false) ∧ callHasErrors r c0 = true) := by
  intro ds
  induction ds with
  | nil =>
    constructor
    · intro _ c hc; simp [cancelLoop] at hc
    · intro o ho; simp [cancelLoop] at ho
  | cons d ds ih =>
    cases hd : r.deleteErrors d.id with
    | some e =>
      have he : cancelLoop r (d :: ds) =
          ([Call.delete d.id], some (failRemote fmtDeleteError [e])) := by
        simp [cancelLoop, hd]
      rw [he]
      constructor
      · intro h; simp at h
      · intro o ho
        simp at ho
        subst ho
        exact ⟨by simp [failRemote, isRemoteErr], [], Call.delete d.id,
          by simp, by simp, by simp [callHasErrors, hd]⟩
    | none =>
      have he : cancelLoop r (d :: ds) =
          (Call.delete d.id :: (cancelLoop r ds).1, (cancelLoop r ds).2) := by
        simp [cancelLoop, hd]
      rw [he]
      constructor
      · intro h c hc
        simp at h hc
        rcases hc with rfl | hc
        · simp [callHasErrors, hd]
        · exact ih.1 h c hc
      · intro o ho
        simp at ho
        obtain ⟨hre, cs0, c0, hcs, hclean, herr⟩ := ih.2 o ho
        refine ⟨hre, Call.delete d.id :: cs0, c0, by simp [hcs], ?_, herr⟩
        intro c hc
        rcases List.mem_cons.mp hc with rfl | hc
        · simp [callHasErrors, hd]
        · exact hclean c hc

/-- The present branch satisfies the fail-fast shape. -/
theorem set_downtime_branch (r : Remote) (p : Params) (ds : List Downtime) (now : Int) :
    BranchSpec r (set_downtime r p ds now) := by
  unfold BranchSpec
  cases hscan : dupScan p ds with
  | some o =>
    left
    constructor
    · simp [set_downtime, hscan, dupScan_not_remote p ds o hscan]
    · intro c hc; simp [set_downtime, hscan] at hc
  | none =>
    cases hc : r.createErrors with
    | some e =>
      right
      constructor
      · simp [set_downtime, hscan, hc, failRemote, isRemoteErr]
      · exact ⟨[], Call.create p.scope (p.start.getD now) p.endTime p.message p.recurrence,
          by simp [set_downtime, hscan, hc], by simp, by simp [callHasErrors, hc]⟩
    | none =>
      left
      constructor
      · simp [set_downtime, hscan, hc, isRemoteErr_exitJson]
      · intro c hcm
        simp [set_downtime, hscan, hc] at hcm
        subst hcm
        simp [callHasErrors, hc]

/-- The updated branch satisfies the fail-fast shape. -/
theorem update_downtimes_branch (r : Remote) (p : Params) (ds : List Downtime) (now : Int) :
    BranchSpec r (update_downtimes r p ds now) := by
  unfold BranchSpec
  rcases hE : updateLoop r p now ds 0 with ⟨cs, res⟩
  cases res with
  | error o =>
    right
    obtain ⟨hre, cs0, c0, hcs, hclean, herr⟩ :=
      (updateLoop_spec r p now ds 0).2 o (by rw [hE])
    rw [hE] at hcs
    simp at hcs
    constructor
    · simp [update_downtimes, hE, hre]
    · exact ⟨cs0, c0, by simp [update_downtimes, hE, hcs], hclean, herr⟩
  | ok n =>
    left
    have hclean := (updateLoop_spec r p now ds 0).1 n (by rw [hE])
    rw [hE] at hclean
    simp at hclean
    constructor
    · simp [update_downtimes, hE, isRemoteErr_exitJson]
    · intro c hcm
      simp [update_downtimes, hE] at hcm
      exact hclean c hcm

/-- The absent branch satisfies the fail-fast shape. -/
theorem cancel_downtimes_branch (r : Remote) (p : Params) (ds : List Downtime) :
    BranchSpec r (cancel_downtimes r p ds) := by
  unfold BranchSpec
  rcases hE : cancelLoop r ds with ⟨cs, res⟩
  cases res with
  | some o =>
    right
    obtain ⟨hre, cs0, c0, hcs, hclean, herr⟩ := (cancelLoop_spec r ds).2 o (by rw [hE])
    rw [hE] at hcs
    simp at hcs
    constructor
    · simp [cancel_downtimes, hE, hre]
    · exact ⟨cs0, c0, by simp [cancel_downtimes, hE, hcs], hclean, herr⟩
  | none =>
    left
    have hclean := (cancelLoop_spec r ds).1 (by rw [hE])
    rw [hE] at hclean
    simp at hclean
    constructor
    · simp [cancel_downtimes, hE, isRemoteErr_exitJson]
    · intro c hcm
      simp [cancel_downtimes, hE] at hcm
      exact hclean c hcm

/-- Assembling a branch result behind a successful list call: the whole
trace errs exactly when the branch trace errs, and every call before the
last one came back clean. -/
theorem branch_assemble (r : Remote) (res : List Call × Outcome)
    (hl : r.listErrors = none) (hB : BranchSpec r res) :
    (isRemoteErr res.2 = true ↔
      ∃ c ∈ Call.listAll :: res.1, callHasErrors r c = true) ∧
    (∀ c ∈ (Call.listAll :: res.1).dropLast, callHasErrors r c = false) := by
  obtain ⟨hok, hclean⟩ | ⟨herr, cs0, c0, hcs, hclean, hc0⟩ := hB
  · constructor
    · rw [hok]
      constructor
      · intro h; cases h
      · rintro ⟨c, hc, hce⟩
        rcases List.mem_cons.mp hc with rfl | hcm
        · simp [callHasErrors, hl] at hce
        · rw [hclean c hcm] at hce; cases hce
    · intro c hc
      rcases List.mem_cons.mp (List.dropLast_subset _ hc) with rfl | hcm
      · simp [callHasErrors, hl]
      · exact hclean c hcm
  · constructor
    · exact Iff.intro
        (fun _ => ⟨c0, by rw [hcs]; simp, hc0⟩)
        (fun _ => herr)
    · intro c hc
      rw [hcs] at hc
      rw [show Call.listAll :: (cs0 ++ [c0]) = (Call.listAll :: cs0) ++ [c0] from rfl,
        List.dropLast_concat] at hc
      rcases List.mem_cons.mp hc with rfl | hcm
      · simp [callHasErrors, hl]
      · exact hclean c hcm

/-- C8: an invocation fails at a remote-error site exactly when some issued
call came back with an errors payload, and the failure is fail-fast: every
call issued before the last one came back clean, so no call is ever issued
after an erroring one. -/
theorem C8_remote_error_iff_and_failfast (r : Remote) (p : Params) (now : Int) :
    (isRemoteErr (runModule r p now).2 = true ↔
      ∃ c ∈ (runModule r p now).1, callHasErrors r c = true) ∧
    (∀ c ∈ (runModule r p now).1.dropLast, callHasErrors r c = false) := by
  cases hl : r.listErrors with
  | some e =>
    have he : runModule r p now = ([Call.listAll], failRemote fmtListError [e]) := by
      simp [runModule, find_downtimes_by_scope, hl]
    rw [he]
    constructor
    · simp [failRemote, isRemoteErr, callHasErrors, hl]
    · simp
  | none =>
    by_cases hF : r.downtimes.filter (matchesFilter p.activeOnly p.scope) = []
    · have he : runModule r p now =
          ([Call.listAll], failNoMatch fmtNoMatch [pyStr p.scope]) := by
        simp [runModule, find_downtimes_by_scope, hl, hF]
      rw [he]
      constructor
      · simp [failNoMatch, isRemoteErr, callHasErrors, hl]
      · simp
    · cases hS : p.state with
      | present =>
        have he : runModule r p now =
            (Call.listAll ::
              (set_downtime r p
                (r.downtimes.filter (matchesFilter p.activeOnly p.scope)) now).1,
              (set_downtime r p
                (r.downtimes.filter (matchesFilter p.activeOnly p.scope)) now).2) := by
          simp [runModule, find_downtimes_by_scope, hl, hF, hS]
        rw [he]
        exact branch_assemble r _ hl (set_downtime_branch r p _ now)
      | updated =>
        have he : runModule r p now =
            (Call.listAll ::
              (update_downtimes r p
                (r.downtimes.filter (matchesFilter p.activeOnly p.scope)) now).1,
              (update_downtimes r p
                (r.downtimes.filter (matchesFilter p.activeOnly p.scope)) now).2) := by
          simp [runModule, find_downtimes_by_scope, hl, hF, hS]
        rw [he]
        exact branch_assemble r _ hl (update_downtimes_branch r p _ now)
      | absent =>
        have he : runModule r p now =
            (Call.listAll ::
              (cancel_downtimes r p
                (r.downtimes.filter (matchesFilter p.activeOnly p.scope))).1,
              (cancel_downtimes r p
                (r.downtimes.filter (matchesFilter p.activeOnly p.scope))).2) := by
          simp [runModule, find_downtimes_by_scope, hl, hF, hS]
        rw [he]
        exact branch_assemble r _ hl (cancel_downtimes_branch r p _)

/-- C8 witness: Scenario E — the list call returns an error payload, and the
invocation indeed terminates at a remote-error site. -/
theorem C8_witness : isRemoteErr (runModule rC8 pC8 0).2 = true :=
  (C8_remote_error_iff_and_failfast rC8 pC8 0).1.mpr
    ⟨Call.listAll, by decide, by decide⟩

/-- C10 amended: with active_only set, an inactive downtime is excluded from
the MatchSet in every lifecycle state (the exclusion happens in the shared
fetch-and-filter step, so the duplicate check of the present path never sees
it); and provided the MatchSet is nonempty — otherwise the invocation fails
at the no-match site before any branch and no create call is issued — the
present path proceeds to the create call whenever the duplicate scan finds no
full match, irrespective of the fields of the excluded inactive downtime. -/
theorem C10_inactive_excluded_amended (r : Remote) (p : Params) (now : Int) (d : Downtime)
    (hao : p.activeOnly = true) (hinactive : d.active = false) :
    d ∉ r.downtimes.filter (matchesFilter p.activeOnly p.scope) ∧
    (∀ ds, (find_downtimes_by_scope r p).2 = Except.ok ds → d ∉ ds) ∧
    (p.state = .present →
      ∀ ds, (find_downtimes_by_scope r p).2 = Except.ok ds →
        dupScan p ds = none →
        (runModule r p now).1 =
          [Call.listAll,
            Call.create p.scope (p.start.getD now) p.endTime p.message p.recurrence]) := by
  have hp1 : d ∉ r.downtimes.filter (matchesFilter p.activeOnly p.scope) := by
    intro hmem
    rw [List.mem_filter, matchesFilter_eq_true_iff] at hmem
    rw [hmem.2.2.1 hao] at hinactive
    cases hinactive
  refine ⟨hp1, ?_, ?_⟩
  · intro ds hok hmem
    obtain ⟨-, hds, -⟩ := find_ok r p ds hok
    rw [hds] at hmem
    exact hp1 hmem
  · intro hS ds hok hscan
    obtain ⟨hl, hds, hne⟩ := find_ok r p ds hok
    subst hds
    cases hcr : r.createErrors with
    | some e =>
      simp [runModule, find_downtimes_by_scope, hl, hne, hS, set_downtime, hscan, hcr]
    | none =>
      simp [runModule, find_downtimes_by_scope, hl, hne, hS, set_downtime, hscan, hcr]

/-- C10 witness: an inactive downtime matching every desired field together
with an active non-duplicate on the same scope, under active_only: the
inactive one is excluded from the MatchSet and the create call is still
issued. -/
theorem C10_witness :
    dC10 ∉ rC10w.downtimes.filter (matchesFilter pC10.activeOnly pC10.scope) ∧
    (runModule rC10w pC10 1000).1 =
      [Call.listAll,
        Call.create pC10.scope ((pC10.start).getD 1000) pC10.endTime pC10.message
          pC10.recurrence] := by
  have h := C10_inactive_excluded_amended rC10w pC10 1000 dC10 rfl rfl
  exact ⟨h.1, h.2.2 rfl [dC10b] rfl rfl⟩

end DatadogDowntime
